import Mathlib

/-!
Formal model of the Job Lifecycle Client of the Yieldera visualization
repository.  The definitions below are a shallow embedding of the React
component `AutomatedVisualizationModule` (src/unnamed/part_000): form
validation (`validateForm`), submission (`handleAnalysisSubmit`), the
WebSocket message handler installed by `startWebSocketConnection`, the
polling fallback `pollJobStatus`, result loading (`loadJobResults`),
cancellation (`handleCancelJob`) and export (`downloadMap`).

Asynchronous behaviour (message arrival, timer ticks, request
resolution) is modelled as an explicit step function `clientStep` over a
`ClientState` record; a run of the component is a fold of `clientStep`
over a list of `Step`s.  JavaScript strings are Lean `String`s, numbers
appearing in the job protocol are `Int`s, and `Date` values of the
`YYYY-MM-DD` form produced by the date inputs are converted to
millisecond timestamps by `dateMs` (days-from-civil algorithm, UTC
midnight, exactly what `new Date("YYYY-MM-DD").getTime()` yields).
-/

namespace Yieldera

/-- Job status values used by `jobStatus.status` in the component. -/
inductive Status where
  | idle
  | pending
  | running
  | completed
  | failed
  | cancelled
deriving DecidableEq

/-- The `jobStatus` react state: `{ status, progress, message, jobId }`. -/
structure JobStatus where
  status : Status
  progress : Int
  message : String
  jobId : Option String
deriving DecidableEq

/-- JavaScript `m || d` for an optional string field of a parsed message:
`undefined` and the empty string are falsy. -/
def jsOr (m : Option String) (d : String) : String :=
  match m with
  | none => d
  | some s => if s = "" then d else s

/-- JavaScript truthiness of a nullable string (`if (jobStatus.jobId)`):
`null`/`undefined` and `""` are falsy. -/
def truthyOpt (o : Option String) : Bool :=
  match o with
  | none => false
  | some s => !(s == "")

/-- Whitespace characters recognised by the model of `trim` and of the
`\s` regex class. -/
def isWsChar (c : Char) : Bool :=
  c == ' ' || c == '\t' || c == '\n' || c == '\r'

/-- Model of JavaScript `String.prototype.trim`. -/
def jsTrim (s : String) : String :=
  ⟨((s.data.dropWhile isWsChar).reverse.dropWhile isWsChar).reverse⟩

/-- Digits of a decimal numeral to a natural number. -/
def digitsToNat (l : List Char) : Nat :=
  l.foldl (fun acc c => acc * 10 + (c.toNat - 48)) 0

/-- Model of `parseInt` on the decimal numerals the component feeds it
(the resolution select values "150"/"300"/"600"). -/
def parseIntJS (s : String) : Int :=
  Int.ofNat (digitsToNat s.data)

/-- Split a character list at every dash. -/
def splitDash : List Char → List (List Char)
  | [] => [[]]
  | c :: rest =>
    let r := splitDash rest
    if c = '-' then [] :: r
    else
      match r with
      | [] => [[c]]
      | g :: gs => (c :: g) :: gs

/-- Days since 1970-01-01 of a proleptic Gregorian date
(days-from-civil algorithm). -/
def daysFromCivil (y m d : Int) : Int :=
  let y := y - (if m ≤ 2 then 1 else 0)
  let era := (if 0 ≤ y then y else y - 399) / 400
  let yoe := y - era * 400
  let mp := (m + 9) % 12
  let doy := (153 * mp + 2) / 5 + d - 1
  let doe := yoe * 365 + yoe / 4 - yoe / 100 + doy
  era * 146097 + doe - 719468

/-- Millisecond timestamp of a `"YYYY-MM-DD"` date-input value, the value
`new Date(s).getTime()` computes for such strings (UTC midnight). -/
def dateMs (s : String) : Int :=
  match splitDash s.data with
  | [y, m, d] =>
    daysFromCivil (Int.ofNat (digitsToNat y)) (Int.ofNat (digitsToNat m))
      (Int.ofNat (digitsToNat d)) * 86400000
  | _ => 0

/-- Geometry drawn on the map (GeoJSON geometry object); the job client
never inspects it beyond null-ness, coordinates are carried as scaled
integers. -/
structure Geometry where
  gtype : String
  coordinates : List (Int × Int)
deriving DecidableEq

/-- The `analysisParams` react state. Dates are the raw `"YYYY-MM-DD"`
strings of the date inputs (empty string when unset). -/
structure AnalysisParams where
  regionName : String
  startDate : String
  endDate : String
  analysisType : String
  geometry : Option Geometry
deriving DecidableEq

/-- The per-field error object built by `validateForm`. -/
structure FormErrors where
  regionName : Option String := none
  startDate : Option String := none
  endDate : Option String := none
  geometry : Option String := none
deriving DecidableEq

/-- Shallow embedding of `validateForm` (part_000 lines 170-204):
sequential writes into an initially empty error object, in source
order. -/
def validateForm (p : AnalysisParams) : FormErrors :=
  let e0 : FormErrors := {}
  let e1 := if jsTrim p.regionName = "" then
      { e0 with regionName := some "Region name is required" } else e0
  let e2 := if p.startDate = "" then
      { e1 with startDate := some "Start date is required" } else e1
  let e3 := if p.endDate = "" then
      { e2 with endDate := some "End date is required" } else e2
  let e4 :=
    if p.startDate ≠ "" ∧ p.endDate ≠ "" then
      let s := dateMs p.startDate
      let en := dateMs p.endDate
      let e4a := if s ≥ en then
          { e3 with endDate := some "End date must be after start date" } else e3
      if en - s > 366 * 86400000 then
        { e4a with endDate := some "Date range cannot exceed 366 days" } else e4a
    else e3
  if p.geometry = none then
    { e4 with geometry := some "Please define an analysis area on the map" } else e4

/-- `Object.keys(validationErrors).length > 0` for the four keys
`validateForm` can set. -/
def hasErrors (e : FormErrors) : Bool :=
  e.regionName.isSome || e.startDate.isSome || e.endDate.isSome || e.geometry.isSome

/-- Outcome of `handleAnalysisSubmit` before any server response:
either the early return with the validation errors (no network call) or
the `POST /visualization/generate` request. -/
inductive SubmitOutcome where
  | validationFailed (errs : FormErrors)
  | postGenerate (p : AnalysisParams)
deriving DecidableEq

/-- Shallow embedding of the local-validation part of
`handleAnalysisSubmit` (part_000 lines 68-79): validate, return without
network call on errors, otherwise issue the generate request. -/
def handleAnalysisSubmit (p : AnalysisParams) : SubmitOutcome :=
  let errs := validateForm p
  if hasErrors errs then SubmitOutcome.validationFailed errs
  else SubmitOutcome.postGenerate p

/-- Parsed form of a WebSocket message body, the `data.type` dispatch of
the `onmessage` handler (part_000 lines 103-128).  `unknownType` stands
for any well-formed JSON object whose `type` matches no branch of the
if/else chain. -/
inductive WsEvent where
  | progressUpdate (progress : Int) (message : String)
  | jobCompleted
  | jobFailed (message : Option String)
  | unknownType
deriving DecidableEq

/-- A raw message delivered on the channel: either a JSON encoding of a
`WsEvent` or a string `JSON.parse` rejects. -/
inductive RawMsg where
  | valid (e : WsEvent)
  | malformed (raw : String)
deriving DecidableEq

/-- Model of `JSON.parse(event.data)`: succeeds on well-formed payloads,
throws a `SyntaxError` on malformed ones. -/
def parseWsMessage : RawMsg → Except String WsEvent
  | RawMsg.valid e => Except.ok e
  | RawMsg.malformed raw => Except.error ("SyntaxError: Unexpected token in JSON: " ++ raw)

/-- One WebSocket object created by `startWebSocketConnection`; it keeps
the `jobId` captured by the closure of its `onmessage`/`onerror`
handlers, and whether `close()` has been called on it. -/
structure WsConn where
  jobId : String
  isOpen : Bool
deriving DecidableEq

/-- Body of the polling-fallback `GET .../status` response. -/
structure StatusResponse where
  status : Status
  progress : Int
  message : String
deriving DecidableEq

/-- Body of the `GET .../preview` response: only `image_data` and
`statistics` (there is no `job_id` member); statistic values are carried
as scaled integers, the client never computes on them. -/
structure PreviewResponse where
  image_data : String
  statistics : List (String × Int)
deriving DecidableEq

/-- The `results` react state, holding the preview response stored
verbatim by `loadJobResults`; `job_id` is the (absent ⇒ `none`) member
`downloadMap` reads. -/
structure StoredResults where
  job_id : Option String
  image_data : String
  statistics : List (String × Int)
deriving DecidableEq

/-- An effect of `downloadMap`: the export POST or the local file
save. -/
inductive ExportAction where
  | postExport (job_id : String) (format : String) (resolution : Int)
  | saveFile (filename : String)
deriving DecidableEq

/-- Model of `regionName.replace(/\s+/g, '_')`: every maximal run of
whitespace becomes a single underscore. -/
def underscoreWsAux : Bool → List Char → List Char
  | _, [] => []
  | inWs, c :: rest =>
    if isWsChar c then
      if inWs then underscoreWsAux true rest
      else '_' :: underscoreWsAux true rest
    else c :: underscoreWsAux false rest

/-- String version of `underscoreWsAux`. -/
def underscoreWs (s : String) : String :=
  ⟨underscoreWsAux false s.data⟩

/-- Shallow embedding of `downloadMap` (part_000 lines 584-614): early
return when `results.job_id` is falsy, otherwise the export request
followed by the local save under the derived filename. -/
def downloadMap (params : AnalysisParams) (res : StoredResults)
    (format resolution : String) : List ExportAction :=
  if truthyOpt res.job_id = false then []
  else
    [ExportAction.postExport (res.job_id.getD "") format (parseIntJS resolution),
     ExportAction.saveFile
       (underscoreWs params.regionName ++ "_analysis_" ++ params.startDate ++ "." ++ format)]

/-- Whole-component state: the `jobStatus` and `results` react state,
every WebSocket created so far (`wsRef.current` is the last entry), the
polling interval with its captured job id, the number of in-flight
status requests, and observable effect logs (preview fetches issued,
cancel requests issued, console errors). -/
structure ClientState where
  job : JobStatus
  sockets : List WsConn
  pollActive : Bool
  pollJobId : String
  pollOutstanding : Nat
  fetchPreviewCalls : List String
  cancelRequests : Nat
  results : Option StoredResults
  log : List String
deriving DecidableEq

/-- Initial component state. -/
def initClient : ClientState :=
  { job := ⟨Status.idle, 0, "", none⟩
    sockets := []
    pollActive := false
    pollJobId := ""
    pollOutstanding := 0
    fetchPreviewCalls := []
    cancelRequests := 0
    results := none
    log := [] }

/-- `startWebSocketConnection(jobId)` (part_000 lines 98-134): creates a
new WebSocket with handlers capturing `jobId` and assigns it to
`wsRef.current`.  Nothing closes or clears the previous socket or a
running interval. -/
def startWebSocketConnection (jobId : String) (st : ClientState) : ClientState :=
  { st with sockets := st.sockets ++ [⟨jobId, true⟩] }

/-- `loadJobResults(jobId)` being invoked (part_000 lines 161-168): the
preview GET is issued; its response arrives later as a separate step. -/
def loadJobResults (jobId : String) (st : ClientState) : ClientState :=
  { st with fetchPreviewCalls := st.fetchPreviewCalls ++ [jobId] }

/-- Effect of a successfully parsed WebSocket message, the `data.type`
dispatch of the `onmessage` handler (part_000 lines 106-127). -/
def wsHandleEvent (jobId : String) (e : WsEvent) (st : ClientState) : ClientState :=
  match e with
  | WsEvent.progressUpdate p m =>
    { st with job := { st.job with status := Status.running, progress := p, message := m } }
  | WsEvent.jobCompleted =>
    let st1 := { st with job := { st.job with
        status := Status.completed, progress := 100,
        message := "Analysis completed successfully" } }
    loadJobResults jobId st1
  | WsEvent.jobFailed m =>
    { st with job := { st.job with
        status := Status.failed, message := jsOr m "Analysis failed" } }
  | WsEvent.unknownType => st

/-- The full `onmessage` handler body: `JSON.parse` first (uncaught
`SyntaxError` propagates, nothing below it runs), then the dispatch. -/
def wsOnMessage (jobId : String) (raw : RawMsg) (st : ClientState) :
    Except String ClientState :=
  match parseWsMessage raw with
  | Except.error e => Except.error e
  | Except.ok ev => Except.ok (wsHandleEvent jobId ev st)

/-- `pollJobStatus(jobId)` being invoked from `onerror` (part_000 lines
136-137): a 2-second interval is started whose callback issues a status
GET on every tick. -/
def pollJobStatus (jobId : String) (st : ClientState) : ClientState :=
  { st with pollActive := true, pollJobId := jobId }

/-- Resolution of one in-flight status GET (part_000 lines 139-154):
`setJobStatus` replaces the whole job object, then on `completed` the
interval is cleared and `loadJobResults` runs; on `failed` the interval
is cleared. -/
def pollResolveStep (resp : StatusResponse) (st : ClientState) : ClientState :=
  if st.pollOutstanding = 0 then st
  else
    let st1 := { st with
      pollOutstanding := st.pollOutstanding - 1,
      job := ⟨resp.status, resp.progress, resp.message, some st.pollJobId⟩ }
    if resp.status = Status.completed then
      loadJobResults st1.pollJobId { st1 with pollActive := false }
    else if resp.status = Status.failed then
      { st1 with pollActive := false }
    else st1

/-- Close the last-created socket, `wsRef.current.close()` guarded by
`if (wsRef.current)`. -/
def closeLast : List WsConn → List WsConn
  | [] => []
  | [c] => [{ c with isOpen := false }]
  | c :: rest => c :: closeLast rest

/-- `handleCancelJob` (part_000 lines 213-225) when the server
acknowledges: guarded only by truthiness of `jobStatus.jobId`; issues
the cancel POST, resets the job state and closes `wsRef.current` (the
most recently created socket). -/
def handleCancelJob (st : ClientState) : ClientState :=
  if truthyOpt st.job.jobId then
    let st1 := { st with
      cancelRequests := st.cancelRequests + 1,
      job := ⟨Status.idle, 0, "", none⟩ }
    { st1 with sockets := closeLast st1.sockets }
  else st

/-- `handleCancelJob` when the cancel POST rejects: the request was
issued, the error is logged, the job state is untouched. -/
def handleCancelJobFail (st : ClientState) : ClientState :=
  if truthyOpt st.job.jobId then
    { st with
      cancelRequests := st.cancelRequests + 1,
      log := st.log ++ ["Failed to cancel job:"] }
  else st

/-- External stimuli driving the component. -/
inductive Step where
  | submitSuccess (jobId : String)
  | subscribe (jobId : String)
  | wsMessage (i : Nat) (raw : RawMsg)
  | wsError (i : Nat)
  | pollTick
  | pollResolve (resp : StatusResponse)
  | pollReject
  | previewResolve (resp : PreviewResponse)
  | cancelOk
  | cancelFail
deriving DecidableEq

/-- Delivery of a raw message on socket `i`: only open sockets fire
handlers; an exception escaping the handler is swallowed by the event
loop with no state change and no log entry. -/
def deliverWsMessage (i : Nat) (raw : RawMsg) (st : ClientState) : ClientState :=
  match st.sockets[i]? with
  | some conn =>
    if conn.isOpen then
      match wsOnMessage conn.jobId raw st with
      | Except.ok st1 => st1
      | Except.error _ => st
    else st
  | none => st

/-- One event-loop step of the component.
`submitSuccess j` is the success continuation of `handleAnalysisSubmit`
(job set to pending with progress 0, then `startWebSocketConnection`);
`subscribe` is a bare `startWebSocketConnection` call; `wsError i` is
the `onerror` handler of socket `i` (fallback to polling);
`pollTick` is the interval callback firing (a status GET is issued
unconditionally); `pollResolve`/`pollReject` resolve one in-flight GET;
`previewResolve` stores the preview response verbatim in `results`;
`cancelOk`/`cancelFail` are `handleCancelJob` with the two outcomes of
the cancel POST. -/
def clientStep (st : ClientState) : Step → ClientState
  | Step.submitSuccess j =>
    startWebSocketConnection j
      { st with job := ⟨Status.pending, 0, "Starting analysis...", some j⟩ }
  | Step.subscribe j => startWebSocketConnection j st
  | Step.wsMessage i raw => deliverWsMessage i raw st
  | Step.wsError i =>
    match st.sockets[i]? with
    | some conn => if conn.isOpen then pollJobStatus conn.jobId st else st
    | none => st
  | Step.pollTick =>
    if st.pollActive then { st with pollOutstanding := st.pollOutstanding + 1 } else st
  | Step.pollResolve resp => pollResolveStep resp st
  | Step.pollReject =>
    if st.pollOutstanding = 0 then st
    else { st with
      pollOutstanding := st.pollOutstanding - 1,
      log := st.log ++ ["Failed to poll job status:"] }
  | Step.previewResolve resp =>
    { st with results := some ⟨none, resp.image_data, resp.statistics⟩ }
  | Step.cancelOk => handleCancelJob st
  | Step.cancelFail => handleCancelJobFail st

/-- A run of the component from the initial state. -/
def runTrace (steps : List Step) : ClientState :=
  steps.foldl clientStep initClient

/-- The message handler never closes, opens or removes a socket. -/
theorem wsHandleEvent_sockets (j : String) (e : WsEvent) (st : ClientState) :
    (wsHandleEvent j e st).sockets = st.sockets := by
  cases e <;> rfl

/-- C1 fails on the code: the `job_completed` branch of the WebSocket
handler never closes the socket — after the terminal transition the
channel is still open, and a further `progress_update` is processed and
moves the job back to `running`. -/
theorem C1_counterexample :
    (runTrace [Step.submitSuccess "job-1",
      Step.wsMessage 0 (RawMsg.valid WsEvent.jobCompleted)]).job.status = Status.completed ∧
    (runTrace [Step.submitSuccess "job-1",
      Step.wsMessage 0 (RawMsg.valid WsEvent.jobCompleted)]).sockets = [⟨"job-1", true⟩] ∧
    (runTrace [Step.submitSuccess "job-1",
      Step.wsMessage 0 (RawMsg.valid WsEvent.jobCompleted),
      Step.wsMessage 0 (RawMsg.valid (WsEvent.progressUpdate 45 "late"))]).job.status
      = Status.running := by
  decide

/-- C1 amended: on the WebSocket path, terminal transitions do not close
the subscription — processing any message leaves the socket list
(including every open flag) unchanged, so later events are still
processed.  Only the polling path deactivates its interval on a terminal
status response, and it does so after the state update. -/
theorem C1_amended :
    (∀ (st : ClientState) (i : Nat) (raw : RawMsg),
      (clientStep st (Step.wsMessage i raw)).sockets = st.sockets) ∧
    (∀ (st : ClientState) (resp : StatusResponse),
      0 < st.pollOutstanding →
      resp.status = Status.completed ∨ resp.status = Status.failed →
      (clientStep st (Step.pollResolve resp)).pollActive = false) := by
  constructor
  · intro st i raw
    simp only [clientStep, deliverWsMessage]
    cases h : st.sockets[i]? with
    | none => rfl
    | some conn =>
      cases ho : conn.isOpen with
      | false => simp [ho]
      | true =>
        cases raw with
        | malformed r => simp [ho, wsOnMessage, parseWsMessage]
        | valid ev => simp [ho, wsOnMessage, parseWsMessage, wsHandleEvent_sockets]
  · intro st resp hout hterm
    have hne : ¬ st.pollOutstanding = 0 := Nat.pos_iff_ne_zero.mp hout
    rcases hterm with h | h <;>
      simp [clientStep, pollResolveStep, hne, h, loadJobResults]

/-- C1 amended, witness: a `job_completed` message on the live socket
leaves the socket list unchanged, and a completed status response at a
state with one outstanding poll clears the interval. -/
theorem C1_amended_witness :
    (clientStep (runTrace [Step.submitSuccess "job-1"])
        (Step.wsMessage 0 (RawMsg.valid WsEvent.jobCompleted))).sockets
      = (runTrace [Step.submitSuccess "job-1"]).sockets ∧
    (clientStep (runTrace [Step.submitSuccess "job-1", Step.wsError 0, Step.pollTick])
        (Step.pollResolve ⟨Status.completed, 100, "done"⟩)).pollActive = false :=
  ⟨C1_amended.1 (runTrace [Step.submitSuccess "job-1"]) 0 (RawMsg.valid WsEvent.jobCompleted),
   C1_amended.2 (runTrace [Step.submitSuccess "job-1", Step.wsError 0, Step.pollTick])
     ⟨Status.completed, 100, "done"⟩ (by decide) (Or.inl rfl)⟩

/-- C3 fails on the code: `handleCancelJob` is guarded only by
`if (jobStatus.jobId)`, and after `job_completed` the jobId is still
set, so cancelling from `completed` issues the cancel POST and resets
the job state to idle — not a no-op. -/
theorem C3_counterexample :
    (runTrace [Step.submitSuccess "job-1",
      Step.wsMessage 0 (RawMsg.valid WsEvent.jobCompleted)]).job.status = Status.completed ∧
    (runTrace [Step.submitSuccess "job-1",
      Step.wsMessage 0 (RawMsg.valid WsEvent.jobCompleted)]).job.jobId = some "job-1" ∧
    (runTrace [Step.submitSuccess "job-1",
      Step.wsMessage 0 (RawMsg.valid WsEvent.jobCompleted), Step.cancelOk]).cancelRequests
      = 1 ∧
    (runTrace [Step.submitSuccess "job-1",
      Step.wsMessage 0 (RawMsg.valid WsEvent.jobCompleted), Step.cancelOk]).job.status
      = Status.idle := by
  decide

/-- C3 amended: cancellation is gated on truthiness of `jobStatus.jobId`
alone, not on the status.  When the jobId is null (the idle state) a
cancel click is a no-op with no network call; when the jobId is set —
which includes the `completed` and `failed` states — the cancel POST is
issued and, on acknowledgement, the job is reset to idle. -/
theorem C3_amended :
    (∀ st : ClientState, truthyOpt st.job.jobId = false →
      clientStep st Step.cancelOk = st ∧ clientStep st Step.cancelFail = st) ∧
    (∀ st : ClientState, truthyOpt st.job.jobId = true →
      (clientStep st Step.cancelOk).cancelRequests = st.cancelRequests + 1 ∧
      (clientStep st Step.cancelOk).job = ⟨Status.idle, 0, "", none⟩) := by
  constructor
  · intro st h
    constructor <;> simp [clientStep, handleCancelJob, handleCancelJobFail, h]
  · intro st h
    constructor <;> simp [clientStep, handleCancelJob, h]

/-- C3 amended, witness: from the initial (idle, null jobId) state both
cancel outcomes are no-ops; from the completed state with jobId "job-1"
a cancel issues one request and resets the job. -/
theorem C3_amended_witness :
    (clientStep initClient Step.cancelOk = initClient ∧
     clientStep initClient Step.cancelFail = initClient) ∧
    ((clientStep (runTrace [Step.submitSuccess "job-1",
        Step.wsMessage 0 (RawMsg.valid WsEvent.jobCompleted)]) Step.cancelOk).cancelRequests
      = (runTrace [Step.submitSuccess "job-1",
        Step.wsMessage 0 (RawMsg.valid WsEvent.jobCompleted)]).cancelRequests + 1 ∧
     (clientStep (runTrace [Step.submitSuccess "job-1",
        Step.wsMessage 0 (RawMsg.valid WsEvent.jobCompleted)]) Step.cancelOk).job
      = ⟨Status.idle, 0, "", none⟩) :=
  ⟨C3_amended.1 initClient rfl,
   C3_amended.2 (runTrace [Step.submitSuccess "job-1",
     Step.wsMessage 0 (RawMsg.valid WsEvent.jobCompleted)]) (by decide)⟩

/-- C6 fails on the code: in the polling fallback, two ticks can leave
two status requests in flight; when both resolve reporting `completed`,
`loadJobResults` (the automatic `fetchPreview`) runs twice in the same
run of the job. -/
theorem C6_counterexample :
    (runTrace [Step.submitSuccess "job-1", Step.wsError 0, Step.pollTick, Step.pollTick,
      Step.pollResolve ⟨Status.completed, 100, "done"⟩,
      Step.pollResolve ⟨Status.completed, 100, "done"⟩]).fetchPreviewCalls
      = ["job-1", "job-1"] := by
  decide

/-- C6 amended: the preview fetch is triggered once per processed
completion event — once per `job_completed` WebSocket message on an open
socket and once per resolved poll response reporting `completed` (so
overlapping in-flight polls can trigger it more than once in a run) —
and never by `job_failed` messages or `failed` poll responses. -/
theorem C6_amended :
    (∀ (st : ClientState) (i : Nat) (m : Option String),
      (clientStep st (Step.wsMessage i (RawMsg.valid (WsEvent.jobFailed m)))).fetchPreviewCalls
        = st.fetchPreviewCalls) ∧
    (∀ (st : ClientState) (resp : StatusResponse), resp.status = Status.failed →
      (clientStep st (Step.pollResolve resp)).fetchPreviewCalls = st.fetchPreviewCalls) ∧
    (∀ (st : ClientState) (resp : StatusResponse), resp.status = Status.completed →
      0 < st.pollOutstanding →
      (clientStep st (Step.pollResolve resp)).fetchPreviewCalls
        = st.fetchPreviewCalls ++ [st.pollJobId]) ∧
    (∀ (st : ClientState) (i : Nat) (conn : WsConn),
      st.sockets[i]? = some conn → conn.isOpen = true →
      (clientStep st (Step.wsMessage i (RawMsg.valid WsEvent.jobCompleted))).fetchPreviewCalls
        = st.fetchPreviewCalls ++ [conn.jobId]) := by
  refine ⟨fun st i m => ?_, fun st resp h => ?_, fun st resp h hout => ?_,
    fun st i conn hc ho => ?_⟩
  · simp only [clientStep, deliverWsMessage]
    cases hc : st.sockets[i]? with
    | none => rfl
    | some conn =>
      cases ho : conn.isOpen <;> simp [ho, wsOnMessage, parseWsMessage, wsHandleEvent]
  · rcases Nat.eq_zero_or_pos st.pollOutstanding with hz | hp
    · simp [clientStep, pollResolveStep, hz]
    · have hne : ¬ st.pollOutstanding = 0 := Nat.pos_iff_ne_zero.mp hp
      simp [clientStep, pollResolveStep, hne, h]
  · have hne : ¬ st.pollOutstanding = 0 := Nat.pos_iff_ne_zero.mp hout
    simp [clientStep, pollResolveStep, hne, h, loadJobResults]
  · simp [clientStep, deliverWsMessage, hc, ho, wsOnMessage, parseWsMessage, wsHandleEvent,
      loadJobResults]

/-- C6 amended, witness: concrete instances of each conjunct — a failed
message leaves the fetch log unchanged, a failed poll response leaves it
unchanged, and a completed poll response and a completed message each
append exactly one fetch. -/
theorem C6_amended_witness :
    ((clientStep (runTrace [Step.submitSuccess "job-1"])
        (Step.wsMessage 0 (RawMsg.valid (WsEvent.jobFailed (some "boom"))))).fetchPreviewCalls
      = (runTrace [Step.submitSuccess "job-1"]).fetchPreviewCalls) ∧
    ((clientStep (runTrace [Step.submitSuccess "job-1", Step.wsError 0, Step.pollTick])
        (Step.pollResolve ⟨Status.failed, 20, "err"⟩)).fetchPreviewCalls
      = (runTrace [Step.submitSuccess "job-1", Step.wsError 0,
          Step.pollTick]).fetchPreviewCalls) ∧
    ((clientStep (runTrace [Step.submitSuccess "job-1", Step.wsError 0, Step.pollTick])
        (Step.pollResolve ⟨Status.completed, 100, "done"⟩)).fetchPreviewCalls
      = (runTrace [Step.submitSuccess "job-1", Step.wsError 0, Step.pollTick]).fetchPreviewCalls
        ++ [(runTrace [Step.submitSuccess "job-1", Step.wsError 0, Step.pollTick]).pollJobId]) ∧
    ((clientStep (runTrace [Step.submitSuccess "job-1"])
        (Step.wsMessage 0 (RawMsg.valid WsEvent.jobCompleted))).fetchPreviewCalls
      = (runTrace [Step.submitSuccess "job-1"]).fetchPreviewCalls ++ ["job-1"]) :=
  ⟨C6_amended.1 (runTrace [Step.submitSuccess "job-1"]) 0 (some "boom"),
   C6_amended.2.1 (runTrace [Step.submitSuccess "job-1", Step.wsError 0, Step.pollTick])
     ⟨Status.failed, 20, "err"⟩ rfl,
   C6_amended.2.2.1 (runTrace [Step.submitSuccess "job-1", Step.wsError 0, Step.pollTick])
     ⟨Status.completed, 100, "done"⟩ rfl (by decide),
   C6_amended.2.2.2 (runTrace [Step.submitSuccess "job-1"]) 0 ⟨"job-1", true⟩
     (by decide) (by decide)⟩

/-- C2 fails on the code: `startWebSocketConnection` overwrites
`wsRef.current` without closing the previous socket.  After two
subscribe calls for different job ids both channels are open, and a
stale `progress_update` arriving on the first job's socket is still
applied to the job state. -/
theorem C2_counterexample :
    (runTrace [Step.subscribe "job-1", Step.subscribe "job-2"]).sockets
      = [⟨"job-1", true⟩, ⟨"job-2", true⟩] ∧
    (runTrace [Step.subscribe "job-1", Step.subscribe "job-2",
      Step.wsMessage 0 (RawMsg.valid (WsEvent.progressUpdate 45 "stale"))]).job.progress = 45 ∧
    (runTrace [Step.subscribe "job-1", Step.subscribe "job-2",
      Step.wsMessage 0 (RawMsg.valid (WsEvent.progressUpdate 45 "stale"))]).job.status
      = Status.running := by
  decide

/-- C2 amended: a second subscribe call appends a new open channel and
tears nothing down — the previous channel stays open (so its events,
including those of the stale job id, are still dispatched) and the rest
of the state is untouched. -/
theorem C2_amended (st : ClientState) (j : String) :
    clientStep st (Step.subscribe j) = { st with sockets := st.sockets ++ [⟨j, true⟩] } :=
  rfl

/-- C4: every local validation failure — empty (or all-whitespace)
region name, missing start or end date, end date not after start date,
range over 366 days, or null geometry — produces an error keyed on the
corresponding field, and whenever the error object is non-empty
`handleAnalysisSubmit` returns it and issues no network call.  In
particular a range over 366 days yields the error keyed on `endDate`. -/
theorem C4_local_validation :
    (∀ p : AnalysisParams, jsTrim p.regionName = "" →
      (validateForm p).regionName = some "Region name is required") ∧
    (∀ p : AnalysisParams, p.startDate = "" →
      (validateForm p).startDate = some "Start date is required") ∧
    (∀ p : AnalysisParams, p.endDate = "" →
      (validateForm p).endDate = some "End date is required") ∧
    (∀ p : AnalysisParams, p.startDate ≠ "" → p.endDate ≠ "" →
      dateMs p.startDate ≥ dateMs p.endDate →
      (validateForm p).endDate = some "End date must be after start date") ∧
    (∀ p : AnalysisParams, p.startDate ≠ "" → p.endDate ≠ "" →
      dateMs p.endDate - dateMs p.startDate > 366 * 86400000 →
      (validateForm p).endDate = some "Date range cannot exceed 366 days") ∧
    (∀ p : AnalysisParams, p.geometry = none →
      (validateForm p).geometry = some "Please define an analysis area on the map") ∧
    (∀ p : AnalysisParams, hasErrors (validateForm p) = true →
      handleAnalysisSubmit p = SubmitOutcome.validationFailed (validateForm p)) := by
  refine ⟨fun p h => ?_, fun p h => ?_, fun p h => ?_, fun p hs he hge => ?_,
    fun p hs he hrng => ?_, fun p h => ?_, fun p h => ?_⟩
  · by_cases h1 : p.startDate = "" <;> by_cases h2 : p.endDate = "" <;>
      by_cases h3 : p.geometry = (none : Option Geometry) <;>
      simp [validateForm, h, h1, h2, h3, apply_ite FormErrors.regionName]
  · by_cases h1 : jsTrim p.regionName = "" <;> by_cases h2 : p.endDate = "" <;>
      by_cases h3 : p.geometry = (none : Option Geometry) <;>
      simp [validateForm, h, h1, h2, h3, apply_ite FormErrors.startDate]
  · by_cases h1 : jsTrim p.regionName = "" <;> by_cases h2 : p.startDate = "" <;>
      by_cases h3 : p.geometry = (none : Option Geometry) <;>
      simp [validateForm, h, h1, h2, h3, apply_ite FormErrors.endDate]
  · have hnr : ¬ dateMs p.endDate - dateMs p.startDate > 366 * 86400000 := by omega
    by_cases h1 : jsTrim p.regionName = "" <;>
      by_cases h3 : p.geometry = (none : Option Geometry) <;>
      simp [validateForm, hs, he, hge, hnr, h1, h3, apply_ite FormErrors.endDate] <;> omega
  · have hnge : ¬ dateMs p.startDate ≥ dateMs p.endDate := by omega
    by_cases h1 : jsTrim p.regionName = "" <;>
      by_cases h3 : p.geometry = (none : Option Geometry) <;>
      simp [validateForm, hs, he, hrng, hnge, h1, h3, apply_ite FormErrors.endDate] <;> omega
  · simp only [validateForm, h]
    simp
  · simp [handleAnalysisSubmit, h]

/-- C4 witness: a concrete request over Zimbabwe whose range
(2025-11-01 to 2027-01-01) exceeds 366 days gets the range error keyed
on `endDate`, and submission stops with the validation errors instead
of a network call. -/
theorem C4_witness :
    (validateForm ⟨"Zimbabwe", "2025-11-01", "2027-01-01", "anomaly",
        some ⟨"Polygon", [(29, -19)]⟩⟩).endDate
      = some "Date range cannot exceed 366 days" ∧
    handleAnalysisSubmit ⟨"Zimbabwe", "2025-11-01", "2027-01-01", "anomaly",
        some ⟨"Polygon", [(29, -19)]⟩⟩
      = SubmitOutcome.validationFailed
          (validateForm ⟨"Zimbabwe", "2025-11-01", "2027-01-01", "anomaly",
            some ⟨"Polygon", [(29, -19)]⟩⟩) :=
  ⟨C4_local_validation.2.2.2.2.1 ⟨"Zimbabwe", "2025-11-01", "2027-01-01", "anomaly",
      some ⟨"Polygon", [(29, -19)]⟩⟩ (by decide) (by decide) (by decide),
   C4_local_validation.2.2.2.2.2.2 ⟨"Zimbabwe", "2025-11-01", "2027-01-01", "anomaly",
      some ⟨"Polygon", [(29, -19)]⟩⟩ (by decide)⟩

/-- C5: from a job in `pending` or `running`, a `job_completed` event on
an open socket moves the job to `completed` with progress forced to 100
and invokes the preview fetch (`loadJobResults`) for that socket's job
id. -/
theorem C5_job_completed (st : ClientState) (i : Nat) (conn : WsConn)
    (hc : st.sockets[i]? = some conn) (ho : conn.isOpen = true)
    (_hs : st.job.status = Status.pending ∨ st.job.status = Status.running) :
    (clientStep st (Step.wsMessage i (RawMsg.valid WsEvent.jobCompleted))).job.status
        = Status.completed ∧
    (clientStep st (Step.wsMessage i (RawMsg.valid WsEvent.jobCompleted))).job.progress = 100 ∧
    (clientStep st (Step.wsMessage i (RawMsg.valid WsEvent.jobCompleted))).fetchPreviewCalls
        = st.fetchPreviewCalls ++ [conn.jobId] := by
  simp [clientStep, deliverWsMessage, hc, ho, wsOnMessage, parseWsMessage, wsHandleEvent,
    loadJobResults]

/-- C5 witness: after a successful submit for "job-1" the job is
pending; `job_completed` on that socket completes the job at progress
100 and fetches the preview once. -/
theorem C5_witness :
    (clientStep (runTrace [Step.submitSuccess "job-1"])
        (Step.wsMessage 0 (RawMsg.valid WsEvent.jobCompleted))).job.status
        = Status.completed ∧
    (clientStep (runTrace [Step.submitSuccess "job-1"])
        (Step.wsMessage 0 (RawMsg.valid WsEvent.jobCompleted))).job.progress = 100 ∧
    (clientStep (runTrace [Step.submitSuccess "job-1"])
        (Step.wsMessage 0 (RawMsg.valid WsEvent.jobCompleted))).fetchPreviewCalls
        = (runTrace [Step.submitSuccess "job-1"]).fetchPreviewCalls ++ ["job-1"] :=
  C5_job_completed (runTrace [Step.submitSuccess "job-1"]) 0 ⟨"job-1", true⟩
    (by decide) (by decide) (Or.inl (by decide))

/-- C7 fails on the code: the `onmessage` handler calls `JSON.parse`
outside any try/catch, so a malformed message raises an uncaught
`SyntaxError`; nothing is logged, no decode-failure count is kept, and
repeated malformed messages never start the polling fallback. -/
theorem C7_counterexample :
    wsOnMessage "job-1" (RawMsg.malformed "oops") initClient
      = Except.error "SyntaxError: Unexpected token in JSON: oops" ∧
    (runTrace [Step.submitSuccess "job-1",
      Step.wsMessage 0 (RawMsg.malformed "a"), Step.wsMessage 0 (RawMsg.malformed "b"),
      Step.wsMessage 0 (RawMsg.malformed "c"), Step.wsMessage 0 (RawMsg.malformed "d"),
      Step.wsMessage 0 (RawMsg.malformed "e")]).log = [] ∧
    (runTrace [Step.submitSuccess "job-1",
      Step.wsMessage 0 (RawMsg.malformed "a"), Step.wsMessage 0 (RawMsg.malformed "b"),
      Step.wsMessage 0 (RawMsg.malformed "c"), Step.wsMessage 0 (RawMsg.malformed "d"),
      Step.wsMessage 0 (RawMsg.malformed "e")]).pollActive = false :=
  ⟨rfl, by decide, by decide⟩

/-- C7 amended: a malformed push message makes the handler throw an
uncaught exception from `JSON.parse`; the component state is entirely
unchanged (the job survives and later valid messages are still
processed), but the message is not logged, no decode-failure count
exists, and the polling fallback is never entered because of decode
failures. -/
theorem C7_amended :
    (∀ (j raw : String) (st : ClientState),
      wsOnMessage j (RawMsg.malformed raw) st
        = Except.error ("SyntaxError: Unexpected token in JSON: " ++ raw)) ∧
    (∀ (st : ClientState) (i : Nat) (raw : String),
      clientStep st (Step.wsMessage i (RawMsg.malformed raw)) = st) := by
  refine ⟨fun j raw st => rfl, fun st i raw => ?_⟩
  simp only [clientStep, deliverWsMessage]
  cases h : st.sockets[i]? with
  | none => rfl
  | some conn =>
    cases ho : conn.isOpen <;> simp [wsOnMessage, parseWsMessage]

/-- C8 fails on the code: the interval callback issues a status GET on
every tick with no single-flight guard, so two ticks with no response
in between leave two requests outstanding. -/
theorem C8_counterexample :
    (runTrace [Step.submitSuccess "job-1", Step.wsError 0,
      Step.pollTick, Step.pollTick]).pollOutstanding = 2 := by
  decide

/-- C8 amended: while the fallback interval is active, every timer tick
unconditionally issues a new status request — no tick is skipped and the
outstanding-request count grows regardless of its current value. -/
theorem C8_amended (st : ClientState) (h : st.pollActive = true) :
    clientStep st Step.pollTick = { st with pollOutstanding := st.pollOutstanding + 1 } := by
  simp [clientStep, h]

/-- C8 amended, witness: at the concrete polling state reached after the
WebSocket error, a tick increments the outstanding count. -/
theorem C8_amended_witness :
    clientStep (runTrace [Step.submitSuccess "job-1", Step.wsError 0, Step.pollTick])
        Step.pollTick
      = { runTrace [Step.submitSuccess "job-1", Step.wsError 0, Step.pollTick] with
          pollOutstanding :=
            (runTrace [Step.submitSuccess "job-1", Step.wsError 0,
              Step.pollTick]).pollOutstanding + 1 } :=
  C8_amended (runTrace [Step.submitSuccess "job-1", Step.wsError 0, Step.pollTick]) (by decide)

/-- C9: the preview response is stored verbatim (so the stored object
has no `job_id`), and `downloadMap` on a stored result without `job_id`
returns immediately: no export request, no file save. -/
theorem C9_export_noop :
    (∀ (params : AnalysisParams) (res : StoredResults) (format resolution : String),
      res.job_id = none → downloadMap params res format resolution = []) ∧
    (∀ (st : ClientState) (resp : PreviewResponse),
      (clientStep st (Step.previewResolve resp)).results
        = some ⟨none, resp.image_data, resp.statistics⟩) := by
  constructor
  · intro params res format resolution h
    simp [downloadMap, h, truthyOpt]
  · intro st resp
    rfl

/-- C9 witness: a concrete stored preview response (image plus
statistics, no `job_id`) makes `downloadMap` a silent no-op. -/
theorem C9_export_noop_witness :
    downloadMap ⟨"Zimbabwe", "2025-11-01", "2025-12-15", "anomaly", none⟩
      ⟨none, "iVBOR", [("mean_anomaly", 1)]⟩ "png" "300" = [] :=
  C9_export_noop.1 ⟨"Zimbabwe", "2025-11-01", "2025-12-15", "anomaly", none⟩
    ⟨none, "iVBOR", [("mean_anomaly", 1)]⟩ "png" "300" rfl

/-- C10: the `job_failed` branch of the message handler sets only status
(to `failed`) and message (event message, defaulted when falsy); jobId
and progress keep their previous values, and no other part of the
component state changes. -/
theorem C10_job_failed_frame (j : String) (m : Option String) (st : ClientState) :
    (wsHandleEvent j (WsEvent.jobFailed m) st).job.jobId = st.job.jobId ∧
    (wsHandleEvent j (WsEvent.jobFailed m) st).job.progress = st.job.progress ∧
    (wsHandleEvent j (WsEvent.jobFailed m) st).job.status = Status.failed ∧
    (wsHandleEvent j (WsEvent.jobFailed m) st).job.message = jsOr m "Analysis failed" ∧
    (wsHandleEvent j (WsEvent.jobFailed m) st).fetchPreviewCalls = st.fetchPreviewCalls ∧
    (wsHandleEvent j (WsEvent.jobFailed m) st).sockets = st.sockets ∧
    (wsHandleEvent j (WsEvent.jobFailed m) st).results = st.results :=
  ⟨rfl, rfl, rfl, rfl, rfl, rfl, rfl⟩

end Yieldera
